import Mathlib

/-!
Verification of the orchestration core of the aisa-agent-framework repository:
a shallow embedding of the LangGraph workflow engine
(app/langgraph/workflow_graph.py, app/langgraph/agent_nodes.py,
app/langgraph/workflow_state.py) and proofs about its state-merge wrapper,
routers, supervisor policy, checkpoint fallback/resume logic and the
collaboration-session lifecycle.
-/

/-- Python values stored in the shared-state dictionary: None, booleans,
integers, strings, lists and (literal, duplicate-free) dictionaries. -/
inductive Val where
  | none : Val
  | bool : Bool → Val
  | nat : Nat → Val
  | str : String → Val
  | list : List Val → Val
  | dict : List (String × Val) → Val

/-- The shared workflow state: a Python dict modelled extensionally as a
partial map from keys to values (a key maps to `none` iff it is absent). -/
abbrev Dict := String → Option Val

/-- First-match lookup in a literal association list (the dict literals in the
source are duplicate-free, so first-match agrees with Python semantics). -/
def lookupList : List (String × Val) → String → Option Val
  | [], _ => Option.none
  | (k', v) :: rest, k => if k = k' then some v else lookupList rest k

namespace Dict

/-- Write one key (Python item assignment). -/
def set (d : Dict) (k : String) (v : Val) : Dict :=
  fun k' => if k' = k then some v else d k'

/-- Fold a list of key/value pairs into a dict (a Python dict literal,
later entries overriding earlier ones as in Python). -/
def updateList (d : Dict) (u : List (String × Val)) : Dict :=
  u.foldl (fun d kv => d.set kv.1 kv.2) d

/-- A dict literal. -/
def ofList (u : List (String × Val)) : Dict :=
  updateList (fun _ => Option.none) u

/-- Python `d.update(u)`: keys of `u` win, all other keys of `d` survive. -/
def update (d u : Dict) : Dict :=
  fun k => (u k).orElse (fun _ => d k)

/-- Python `state.get(k)`: missing keys give None. -/
def pyGet (d : Dict) (k : String) : Val :=
  (d k).getD Val.none

/-- Python `state.get(k, default)`. -/
def pyGetD (d : Dict) (k : String) (default : Val) : Val :=
  (d k).getD default

end Dict

/-- Python `v.get(k, default)` on a value known to be a dict;
on a non-dict value the source would raise, which no reachable call does,
so the embedding returns the default there. -/
def Val.pyGetD (v : Val) (k : String) (default : Val) : Val :=
  match v with
  | Val.dict es => (lookupList es k).getD default
  | _ => default

/-- Python `v == "s"` for a value compared against a string literal. -/
def Val.eqStr (v : Val) (s : String) : Bool :=
  match v with
  | Val.str t => t = s
  | _ => false

/-!
## Agent nodes (app/langgraph/agent_nodes.py)

Each agent node's domain payload (blueprint generation, script templating,
environment probing, report rendering) is an external collaborator the spec
declares out of scope (spec sections 1 and 6), so those helper methods are
abstracted as opaque parameters in `DomainHelpers`; the orchestration-visible
structure of each node — which keys it reads, which keys its success and
failure returns write, the status values, the error conversion — is embedded
exactly as written in the source.  A node's only nondeterminism is whether
its try-block raises, modelled by an `Option String` exception argument
(`Option.none` = no exception, `some e` = an exception whose str() is `e`);
`datetime.now().isoformat()` is modelled by a `now : String` argument.
The best-effort `safe_database_call` logging swallows every exception and
returns nothing consumed by the node, so it has no state-visible effect.
-/

/-- The domain-logic helper methods of the four agent classes, treated as
opaque external collaborators (spec sections 1 and 6). -/
structure DomainHelpers where
  generate_blueprint : Val → Val → Val → Val
  extract_ui_elements : Val → Val → Val
  generate_workflow_steps : Val → Val → Val
  generate_script : Val → Val → Val → Val → String
  generate_requirements : Val → String
  setup_environment : Val → Val
  get_device_config : Val → Val
  run_validation_tests : Val → Val → Val
  generate_comprehensive_report : Dict → Val

/-- Agent1Node.call: blueprint generation.  Success and failure both return
the update dict literal written in the source (lines 78-105). -/
def agent1_call (H : DomainHelpers) (exc : Option String) (now : String)
    (state : Dict) : Dict :=
  let task_id := state.pyGet "task_id"
  let instruction := state.pyGetD "instruction" (Val.str "No instruction provided")
  let platform := state.pyGetD "platform" (Val.str "unknown")
  let document_data := state.pyGetD "document_data" (Val.dict [])
  match exc with
  | Option.none =>
      let blueprint := H.generate_blueprint instruction platform document_data
      let ui_elements := H.extract_ui_elements document_data platform
      let workflow_steps := H.generate_workflow_steps instruction platform
      Dict.ofList
        [("task_id", task_id), ("instruction", instruction),
         ("platform", platform), ("document_data", document_data),
         ("agent1_status", Val.str "completed"),
         ("blueprint", blueprint), ("ui_elements", ui_elements),
         ("workflow_steps", workflow_steps),
         ("agent1_completed_at", Val.str now)]
  | some e =>
      Dict.ofList
        [("task_id", task_id), ("instruction", instruction),
         ("platform", platform), ("document_data", document_data),
         ("agent1_status", Val.str "failed"),
         ("error_messages", Val.list [Val.str ("Agent1 error: " ++ e)]),
         ("agent1_completed_at", Val.str now)]

/-- Agent2Node.call: code generation (source lines 199-258). -/
def agent2_call (H : DomainHelpers) (exc : Option String) (now : String)
    (state : Dict) : Dict :=
  let task_id := state.pyGet "task_id"
  let instruction := state.pyGetD "instruction" (Val.str "")
  let platform := state.pyGetD "platform" (Val.str "unknown")
  let blueprint := state.pyGetD "blueprint" (Val.dict [])
  let ui_elements := state.pyGetD "ui_elements" (Val.list [])
  let workflow_steps := state.pyGetD "workflow_steps" (Val.list [])
  match exc with
  | Option.none =>
      let script_content := H.generate_script platform blueprint ui_elements workflow_steps
      let requirements_content := H.generate_requirements platform
      Dict.ofList
        [("task_id", task_id), ("instruction", instruction),
         ("platform", platform), ("blueprint", blueprint),
         ("ui_elements", ui_elements), ("workflow_steps", workflow_steps),
         ("agent2_status", Val.str "completed"),
         ("generated_code", Val.dict
            [("script", Val.str script_content),
             ("requirements", Val.str requirements_content)]),
         ("script_content", Val.str script_content),
         ("requirements_content", Val.str requirements_content),
         ("agent2_completed_at", Val.str now)]
  | some e =>
      Dict.ofList
        [("task_id", task_id), ("instruction", instruction),
         ("platform", platform), ("blueprint", blueprint),
         ("ui_elements", ui_elements), ("workflow_steps", workflow_steps),
         ("agent2_status", Val.str "failed"),
         ("error_messages", Val.list [Val.str ("Agent2 error: " ++ e)]),
         ("agent2_completed_at", Val.str now)]

/-- Agent3Node.call: testing and execution (source lines 420-476). -/
def agent3_call (H : DomainHelpers) (exc : Option String) (now : String)
    (state : Dict) : Dict :=
  let task_id := state.pyGet "task_id"
  let instruction := state.pyGetD "instruction" (Val.str "")
  let platform := state.pyGetD "platform" (Val.str "unknown")
  let script_content := state.pyGetD "script_content" (Val.str "")
  match exc with
  | Option.none =>
      let environment_ready := H.setup_environment platform
      let device_config := H.get_device_config platform
      let testing_results := H.run_validation_tests script_content platform
      Dict.ofList
        [("task_id", task_id), ("instruction", instruction),
         ("platform", platform), ("script_content", script_content),
         ("agent3_status", Val.str "completed"),
         ("environment_ready", environment_ready),
         ("device_config", device_config),
         ("testing_results", testing_results),
         ("script_executed", testing_results.pyGetD "success" (Val.bool false)),
         ("agent3_completed_at", Val.str now)]
  | some e =>
      Dict.ofList
        [("task_id", task_id), ("instruction", instruction),
         ("platform", platform), ("script_content", script_content),
         ("agent3_status", Val.str "failed"),
         ("environment_ready", Val.bool false),
         ("error_messages", Val.list [Val.str ("Agent3 error: " ++ e)]),
         ("agent3_completed_at", Val.str now)]

/-- Agent4Node.call: final results.  Unlike agents 1-3 it returns a full
copy of the incoming state updated with its outputs
(`result_state = dict(state); result_state.update({...})`, source
lines 530-575). -/
def agent4_call (H : DomainHelpers) (exc : Option String) (now : String)
    (state : Dict) : Dict :=
  match exc with
  | Option.none =>
      let final_results := H.generate_comprehensive_report state
      Dict.update state (Dict.ofList
        [("agent4_status", Val.str "completed"),
         ("final_results", final_results),
         ("workflow_completed", Val.bool true),
         ("confidence", final_results.pyGetD "confidence_score" (Val.nat 85)),
         ("agent4_completed_at", Val.str now)])
  | some e =>
      Dict.update state (Dict.ofList
        [("agent4_status", Val.str "failed"),
         ("error_messages", Val.list [Val.str ("Agent4 error: " ++ e)]),
         ("workflow_completed", Val.bool false),
         ("agent4_completed_at", Val.str now)])

/-- SupervisorNode.make_routing_decision (source lines 709-740): route by the
first failed agent in the fixed order agent1, agent2, agent3; with no failed
agent, end. -/
def make_routing_decision (state : Dict) : Val :=
  let agent1_status := state.pyGet "agent1_status"
  let agent2_status := state.pyGet "agent2_status"
  let agent3_status := state.pyGet "agent3_status"
  if agent1_status.eqStr "failed" then
    Val.dict [("next_agent", Val.str "agent2"),
      ("reason", Val.str "Agent1 failed, attempting to continue with Agent2"),
      ("retry_count", Val.nat 1)]
  else if agent2_status.eqStr "failed" then
    Val.dict [("next_agent", Val.str "agent3"),
      ("reason", Val.str "Agent2 failed, proceeding to testing phase"),
      ("retry_count", Val.nat 1)]
  else if agent3_status.eqStr "failed" then
    Val.dict [("next_agent", Val.str "agent4"),
      ("reason", Val.str "Agent3 failed, proceeding to final reporting"),
      ("retry_count", Val.nat 1)]
  else
    Val.dict [("next_agent", Val.str "end"),
      ("reason", Val.str "All agents completed or supervisor fallback not needed"),
      ("retry_count", Val.nat 0)]

/-- SupervisorNode.call (source lines 688-707): copy the full state and
overwrite exactly the `supervisor_decision` and `supervisor_evaluated_at`
fields.  It has no try/except block and no failure path. -/
def supervisor_call (now : String) (state : Dict) : Dict :=
  let decision := make_routing_decision state
  Dict.update state (Dict.ofList
    [("supervisor_decision", decision),
     ("supervisor_evaluated_at", Val.str now)])

/-!
## Workflow graph (app/langgraph/workflow_graph.py)
-/

/-- The five graph nodes registered by `_build_workflow_graph`. -/
inductive NodeId where
  | agent1 | agent2 | agent3 | agent4 | supervisor
deriving DecidableEq, Repr

/-- A routing target: another node, or the END terminal. -/
inductive Target where
  | toNode (n : NodeId)
  | terminal
deriving DecidableEq, Repr

/-- `_wrap_node` (source lines 99-113): merge the node's returned update
into a copy of the incoming state so that existing keys are never dropped
(the source's `if updates:` guard only skips the merge when the update is
empty, and merging an empty update is pointwise the identity). -/
def wrap_node (node_fn : Dict → Dict) (state : Dict) : Dict :=
  let updates := node_fn state
  Dict.update state updates

/-- `_route_from_agent1` (source lines 234-240). -/
def route_from_agent1 (state : Dict) : String :=
  if (state.pyGet "agent1_status").eqStr "completed" then "agent2" else "supervisor"

/-- `_route_from_agent2` (source lines 242-248). -/
def route_from_agent2 (state : Dict) : String :=
  if (state.pyGet "agent2_status").eqStr "completed" then "agent3" else "supervisor"

/-- `_route_from_supervisor` (source lines 250-252):
`state.get("supervisor_decision", {}).get("next_agent", "end")`, clamped to
the routable set. -/
def route_from_supervisor (state : Dict) : String :=
  let next_agent := (state.pyGetD "supervisor_decision" (Val.dict [])).pyGetD "next_agent" (Val.str "end")
  match next_agent with
  | Val.str s => if s = "agent2" ∨ s = "agent3" ∨ s = "agent4" then s else "end"
  | _ => "end"

/-- The successor function of the compiled graph (`_build_workflow_graph`,
source lines 193-224): conditional edges out of agent1, agent2 and the
supervisor, unconditional edges agent3 → agent4 and agent4 → END. -/
def graph_next (n : NodeId) (state : Dict) : Target :=
  match n with
  | .agent1 => if route_from_agent1 state = "agent2" then .toNode .agent2 else .toNode .supervisor
  | .agent2 => if route_from_agent2 state = "agent3" then .toNode .agent3 else .toNode .supervisor
  | .agent3 => .toNode .agent4
  | .agent4 => .terminal
  | .supervisor =>
      match route_from_supervisor state with
      | "agent2" => .toNode .agent2
      | "agent3" => .toNode .agent3
      | "agent4" => .toNode .agent4
      | _ => .terminal

/-- Dispatch one graph node to its wrapped agent callable
(the node table built by `create_agent_nodes`). -/
def run_node (H : DomainHelpers) (n : NodeId) (exc : Option String)
    (now : String) : Dict → Dict :=
  match n with
  | .agent1 => agent1_call H exc now
  | .agent2 => agent2_call H exc now
  | .agent3 => agent3_call H exc now
  | .agent4 => agent4_call H exc now
  | .supervisor => fun state => supervisor_call now state

/-- A point in a run: the node about to execute (`Option.none` once END is
reached), the shared state, and the ordered list of nodes executed so far. -/
structure ExecState where
  node : Option NodeId
  state : Dict
  visited : List NodeId

/-- One engine step: execute the wrapped node, then follow the edge chosen
by the router on the merged state (ainvoke's sequential semantics). -/
def workflow_step (H : DomainHelpers) (excF : Nat → Option String)
    (nowF : Nat → String) (i : Nat) (e : ExecState) : ExecState :=
  match e.node with
  | Option.none => e
  | some n =>
      let merged := wrap_node (run_node H n (excF i) (nowF i)) e.state
      { node :=
          match graph_next n merged with
          | .toNode m => some m
          | .terminal => Option.none,
        state := merged,
        visited := e.visited ++ [n] }

/-- Run the compiled graph for `fuel` steps from the entry point `agent1`
(`set_entry_point("agent1")`); `excF i` is the exception raised (if any) by
the domain logic of the node executed at step `i`, `nowF i` its wall-clock
timestamp. -/
def workflow_run (H : DomainHelpers) (excF : Nat → Option String)
    (nowF : Nat → String) (s0 : Dict) : Nat → ExecState
  | 0 => { node := some NodeId.agent1, state := s0, visited := [] }
  | k + 1 => workflow_step H excF nowF k (workflow_run H excF nowF s0 k)


/-!
## Engine initialization and resume (app/langgraph/workflow_graph.py)
-/

/-- The fields of the dict returned by `initialize_graph` that the claims
inspect.  `warning_logged` records whether the checkpointer-failure branch
emitted its warning-level log lines. -/
structure InitResult where
  success : Bool
  checkpointer_status : String
  has_checkpointer : Bool
  graph_compiled : Bool
  warning_logged : Bool
deriving DecidableEq, Repr

/-- `initialize_graph` (source lines 115-191): if the graph prerequisites
are unavailable, fail; otherwise try to enter the SqliteSaver context — if
that raises (`sqlite_init_raises`), log a warning, clear the checkpointer
and continue with `checkpointer_status = "disabled_fallback"` — then create
the agent nodes and compile the workflow graph, reporting success. -/
def init_graph (graph_available : Bool) (sqlite_init_raises : Bool) :
    InitResult :=
  if !graph_available then
    { success := false, checkpointer_status := "unavailable",
      has_checkpointer := false, graph_compiled := false,
      warning_logged := false }
  else
    { success := true,
      checkpointer_status :=
        if sqlite_init_raises then "disabled_fallback" else "enabled",
      has_checkpointer := !sqlite_init_raises,
      graph_compiled := true,
      warning_logged := sqlite_init_raises }

/-- Execution of the compiled graph.  `_build_workflow_graph` (source lines
193-232) registers the same nodes and edges whether or not a checkpointer is
attached; `workflow.compile(checkpointer=...)` versus `workflow.compile()`
changes only where snapshots are persisted, not the transition behaviour, so
the executable graph is the same step machine in both modes. -/
def compiled_graph_run (has_checkpointer : Bool) (H : DomainHelpers)
    (excF : Nat → Option String) (nowF : Nat → String) (s0 : Dict)
    (fuel : Nat) : ExecState :=
  workflow_run H excF nowF s0 fuel

/-- The result dict of `resume_workflow`, restricted to the fields the
claims inspect. -/
structure ResumeResult where
  success : Bool
  error : Option String
  warning : Option String
  final_state : Option Dict

/-- A checkpoint store: the latest checkpointed state per thread id
(the engine always resumes within its own `task-{task_id}` namespace). -/
abbrev CheckpointStore := String → Option Dict

/-- `resume_workflow` (source lines 460-519) on an initialized engine:
with no checkpointer attached, return success with only a warning; with a
checkpointer, look up the checkpoint for the thread — if none exists return
a failure result `"No checkpoint found for thread …"` without invoking the
graph, otherwise continue execution from the checkpoint via ainvoke
(modelled by the external continuation `run_from_checkpoint`, which may
write further checkpoints, hence returns an updated store).  The returned
store is the store after the call. -/
def resume_workflow (has_checkpointer : Bool) (store : CheckpointStore)
    (run_from_checkpoint : Dict → Dict × CheckpointStore)
    (thread_id : String) : ResumeResult × CheckpointStore :=
  if !has_checkpointer then
    ({ success := true, error := Option.none,
       warning := some "No checkpointer attached - nothing to resume",
       final_state := Option.none }, store)
  else
    match store thread_id with
    | Option.none =>
        ({ success := false,
           error := some ("No checkpoint found for thread " ++ thread_id),
           warning := Option.none, final_state := Option.none }, store)
    | some ckpt_state =>
        let continued := run_from_checkpoint ckpt_state
        ({ success := true, error := Option.none, warning := Option.none,
           final_state := some continued.1 }, continued.2)

/-!
## Collaboration sessions (app/langgraph/workflow_state.py)

The collaboration protocol lives on the `AutomationWorkflowState` class;
the embedding keeps the attributes those methods read and write.
-/

/-- One message exchanged inside a collaboration session. -/
structure CollabMessage where
  from_agent : String
  to_agent : String
  message_type : String
  content : Val
  timestamp : String

/-- One collaboration session record as built by `start_collaboration`;
`ended_at` and `resolution` are added by `end_collaboration`. -/
structure CollabSession where
  session_id : String
  requesting_agent : String
  target_agent : String
  request_data : Val
  status : String
  started_at : String
  messages : List CollabMessage
  ended_at : Option String
  resolution : Option String

/-- The collaboration-related attributes of `AutomationWorkflowState`. -/
structure CollabState where
  collaboration_active : Bool
  collaboration_history : List CollabSession
  collaboration_count : Nat
  collaboration_requested : Bool

/-- Replace the last element of a list in place
(Python `lst[-1]` mutation; a no-op on the empty list). -/
def updateLast {α : Type} (f : α → α) : List α → List α
  | [] => []
  | [a] => [f a]
  | a :: rest => a :: updateLast f rest

/-- `start_collaboration` (source lines 185-202). -/
def start_collaboration (st : CollabState) (requesting_agent target_agent : String)
    (request_data : Val) (now : String) : CollabState :=
  let session : CollabSession :=
    { session_id := "collab_" ++ toString (st.collaboration_history.length + 1),
      requesting_agent := requesting_agent, target_agent := target_agent,
      request_data := request_data, status := "active", started_at := now,
      messages := [], ended_at := Option.none, resolution := Option.none }
  { st with
    collaboration_history := st.collaboration_history ++ [session],
    collaboration_active := true,
    collaboration_count := st.collaboration_count + 1,
    collaboration_requested := true }

/-- `add_collaboration_message` (source lines 204-217): append to the
current (last) session only when a collaboration is active and the history
is nonempty; otherwise the method falls through and changes nothing. -/
def add_collaboration_message (st : CollabState) (from_agent to_agent message_type : String)
    (content : Val) (now : String) : CollabState :=
  if st.collaboration_active && !st.collaboration_history.isEmpty then
    { st with
      collaboration_history := updateLast
        (fun s => { s with messages := s.messages ++
          [{ from_agent := from_agent, to_agent := to_agent,
             message_type := message_type, content := content,
             timestamp := now }] })
        st.collaboration_history }
  else st

/-- `end_collaboration` (source lines 219-228): seal the current (last)
session with a terminal status, end timestamp and resolution note, and
clear `collaboration_active`; a no-op when no collaboration is active. -/
def end_collaboration (st : CollabState) (success : Bool)
    (resolution : Option String) (now : String) : CollabState :=
  if st.collaboration_active && !st.collaboration_history.isEmpty then
    { st with
      collaboration_history := updateLast
        (fun s => { s with
          status := if success then "completed" else "failed",
          ended_at := some now,
          resolution := some (resolution.getD (if success then "Success" else "Failed")) })
        st.collaboration_history,
      collaboration_active := false }
  else st

/-!
## The spec's supervisor policy table (spec section 4.3), for refinement
-/

/-- Modelled from the spec's policy table, for comparison with
`make_routing_decision`: the next agent the spec's section 4.3 table
prescribes given the three per-agent status fields. -/
def spec_policy_next_agent (state : Dict) : String :=
  if (state.pyGet "agent1_status").eqStr "failed" then "agent2"
  else if (state.pyGet "agent2_status").eqStr "failed" then "agent3"
  else if (state.pyGet "agent3_status").eqStr "failed" then "agent4"
  else "end"

/-!
## Concrete fixtures for witnesses and counterexamples
-/

/-- Concrete instances of the opaque domain helpers, used only to evaluate
runs on concrete inputs. -/
def trivial_helpers : DomainHelpers :=
  { generate_blueprint := fun _ _ _ => Val.dict []
    extract_ui_elements := fun _ _ => Val.list []
    generate_workflow_steps := fun _ _ => Val.list []
    generate_script := fun _ _ _ _ => ""
    generate_requirements := fun _ => ""
    setup_environment := fun _ => Val.bool true
    get_device_config := fun _ => Val.dict []
    run_validation_tests := fun _ _ => Val.dict [("success", Val.bool true)]
    generate_comprehensive_report := fun _ => Val.dict [] }

/-- A concrete initial shared state (as a thin caller would supply it). -/
def s0c : Dict :=
  Dict.ofList [("task_id", Val.nat 1), ("instruction", Val.str "send an email"),
    ("platform", Val.str "web"), ("error_messages", Val.list [])]

/-- A state about to enter the supervisor, carrying an (empty)
`supervisor_decisions` list and a failed agent1. -/
def sC3 : Dict :=
  Dict.ofList [("supervisor_decisions", Val.list []),
    ("agent1_status", Val.str "failed")]

/-- A state in which agent3 has just failed. -/
def sC4 : Dict := Dict.ofList [("agent3_status", Val.str "failed")]

/-- A state that already carries an earlier error record. -/
def sC5 : Dict :=
  Dict.ofList [("task_id", Val.nat 7),
    ("error_messages", Val.list [Val.str "old error"])]

/-- A state whose retry counter already exceeds its cap, with agent1
failed. -/
def sC9 : Dict :=
  Dict.ofList [("agent1_status", Val.str "failed"),
    ("retry_count", Val.nat 5), ("max_retries", Val.nat 3)]

/-- A fresh workflow state with no collaboration yet. -/
def collab0 : CollabState :=
  { collaboration_active := false, collaboration_history := [],
    collaboration_count := 0, collaboration_requested := false }

/-- A collaboration session that has been started and then sealed by
`end_collaboration`. -/
def sealed_state : CollabState :=
  end_collaboration
    (start_collaboration collab0 "agent3" "agent2" (Val.dict []) "t1")
    true (some "Code fixed") "t2"

/-!
## Helper lemmas
-/

/-- Merging an update into a dict never erases an existing key. -/
theorem Dict.update_preserves (d u : Dict) (k : String)
    (h : d k ≠ Option.none) : Dict.update d u k ≠ Option.none := by
  cases hu : u k with
  | none => simpa [Dict.update, hu] using h
  | some v => simp [Dict.update, hu]

/-- `Val.eqStr` decides equality with a string value. -/
theorem Val.eqStr_iff (v : Val) (s : String) :
    v.eqStr s = true ↔ v = Val.str s := by
  cases v <;> simp [Val.eqStr]

/-!
## Claims
-/

set_option maxRecDepth 10000

/-- C1: for every run and every node execution, every key present in the
shared state before the node's wrapped execution is still present after it —
for any domain helpers, any exception pattern (so in particular when the
node's domain logic fails) and any timestamps — because `_wrap_node` merges
the node's partial update into a copy of the incoming state. -/
theorem state_keys_monotone (H : DomainHelpers) (excF : Nat → Option String)
    (nowF : Nat → String) (s0 : Dict) (i : Nat) (k : String)
    (h : (workflow_run H excF nowF s0 i).state k ≠ Option.none) :
    (workflow_run H excF nowF s0 (i + 1)).state k ≠ Option.none := by
  have hstep : workflow_run H excF nowF s0 (i + 1) =
      workflow_step H excF nowF i (workflow_run H excF nowF s0 i) := rfl
  rw [hstep]
  cases hn : (workflow_run H excF nowF s0 i).node with
  | none => simpa [workflow_step, hn] using h
  | some n =>
      simp only [workflow_step, hn, wrap_node]
      exact Dict.update_preserves _ _ _ h

/-- Witness for C1 at a concrete run whose first node execution fails:
the `task_id` key is present before the execution and still present after
it. -/
theorem state_keys_monotone_witness :
    (workflow_run trivial_helpers (fun _ => some "boom") (fun _ => "t") s0c 0).state "task_id" ≠ Option.none ∧
    (workflow_run trivial_helpers (fun _ => some "boom") (fun _ => "t") s0c 1).state "task_id" ≠ Option.none :=
  ⟨by simp [workflow_run, s0c, Dict.ofList, Dict.updateList, Dict.set],
   state_keys_monotone trivial_helpers (fun _ => some "boom") (fun _ => "t")
     s0c 0 "task_id"
     (by simp [workflow_run, s0c, Dict.ofList, Dict.updateList, Dict.set])⟩

/-- C2 counterexample: in the run whose agents all raise, agent1 fails, the
supervisor (whose decision checks `agent1_status` first) keeps routing back
to the already-visited agent2, and after twelve steps the supervisor has
been visited six times (more than the four pipeline stages) with the run
still not terminated — so the claimed bound and the no-backward-routing
property are both false and this run loops indefinitely. -/
theorem supervisor_visit_bound_counterexample :
    (workflow_run trivial_helpers (fun _ => some "boom") (fun _ => "t") s0c 12).visited =
      [NodeId.agent1, NodeId.supervisor, NodeId.agent2, NodeId.supervisor,
       NodeId.agent2, NodeId.supervisor, NodeId.agent2, NodeId.supervisor,
       NodeId.agent2, NodeId.supervisor, NodeId.agent2, NodeId.supervisor] ∧
    (workflow_run trivial_helpers (fun _ => some "boom") (fun _ => "t") s0c 12).node = some NodeId.agent2 ∧
    ((workflow_run trivial_helpers (fun _ => some "boom") (fun _ => "t") s0c 12).visited.count NodeId.supervisor) = 6 :=
  ⟨rfl, rfl, by decide⟩

/-- C2 amended: if stage 1 (agent1) does not fail, every run — whatever the
domain helpers and whatever happens to agents 2, 3, 4 — reaches the terminal
node within five node executions, visits the Supervisor at most once
(hence at most N = 4 times), and never routes backward: the nodes executed
are exactly agent1, agent2, agent3, agent4 with at most one supervisor
interposed. -/
theorem supervisor_forward_progress_when_agent1_succeeds
    (H : DomainHelpers) (excF : Nat → Option String) (nowF : Nat → String)
    (s0 : Dict) (h0 : excF 0 = Option.none) :
    (workflow_run H excF nowF s0 5).node = Option.none ∧
    (workflow_run H excF nowF s0 5).visited.count NodeId.supervisor ≤ 1 ∧
    ((workflow_run H excF nowF s0 5).visited =
        [NodeId.agent1, NodeId.agent2, NodeId.agent3, NodeId.agent4] ∨
      (workflow_run H excF nowF s0 5).visited =
        [NodeId.agent1, NodeId.agent2, NodeId.supervisor, NodeId.agent3, NodeId.agent4]) := by
  cases h1 : excF 1 with
  | none =>
      simp [workflow_run, workflow_step, wrap_node, run_node, agent1_call,
        agent2_call, agent3_call, agent4_call, supervisor_call,
        make_routing_decision, graph_next, route_from_agent1, route_from_agent2,
        route_from_supervisor, Dict.update, Dict.ofList, Dict.updateList,
        Dict.set, Dict.pyGet, Dict.pyGetD, Val.pyGetD, Val.eqStr, lookupList,
        h0, h1, List.count]
  | some e =>
      simp [workflow_run, workflow_step, wrap_node, run_node, agent1_call,
        agent2_call, agent3_call, agent4_call, supervisor_call,
        make_routing_decision, graph_next, route_from_agent1, route_from_agent2,
        route_from_supervisor, Dict.update, Dict.ofList, Dict.updateList,
        Dict.set, Dict.pyGet, Dict.pyGetD, Val.pyGetD, Val.eqStr, lookupList,
        h0, h1, List.count]

/-- Witness for the amended C2 at a concrete run with no failures. -/
theorem supervisor_forward_progress_witness :
    (workflow_run trivial_helpers (fun _ => Option.none) (fun _ => "t") s0c 5).node = Option.none ∧
    (workflow_run trivial_helpers (fun _ => Option.none) (fun _ => "t") s0c 5).visited.count NodeId.supervisor ≤ 1 ∧
    ((workflow_run trivial_helpers (fun _ => Option.none) (fun _ => "t") s0c 5).visited =
        [NodeId.agent1, NodeId.agent2, NodeId.agent3, NodeId.agent4] ∨
      (workflow_run trivial_helpers (fun _ => Option.none) (fun _ => "t") s0c 5).visited =
        [NodeId.agent1, NodeId.agent2, NodeId.supervisor, NodeId.agent3, NodeId.agent4]) :=
  supervisor_forward_progress_when_agent1_succeeds trivial_helpers
    (fun _ => Option.none) (fun _ => "t") s0c rfl

/-- C3 counterexample: on a supervisor visit, nothing is ever appended to
the `supervisor_decisions` list — it is empty before the visit and still
empty after it (the node records its decision by overwriting the singular
`supervisor_decision` field instead). -/
theorem supervisor_decisions_not_appended :
    sC3 "supervisor_decisions" = some (Val.list []) ∧
    (supervisor_call "t0" sC3) "supervisor_decisions" = some (Val.list []) ∧
    (supervisor_call "t0" sC3) "supervisor_decision" = some (make_routing_decision sC3) :=
  ⟨rfl, rfl, rfl⟩

/-- C3 amended: on every Supervisor visit the Supervisor records exactly one
decision by overwriting the `supervisor_decision` field (the
`supervisor_decisions` list is left untouched), and the decision's
`next_agent` follows the fixed policy table evaluated in order: stage 1
failed → stage 2; else stage 2 failed → stage 3; else stage 3 failed →
stage 4; else terminate (`end`). -/
theorem supervisor_decision_overwrite_per_policy (st : Dict) (now : String) :
    (supervisor_call now st) "supervisor_decision" = some (make_routing_decision st) ∧
    (supervisor_call now st) "supervisor_evaluated_at" = some (Val.str now) ∧
    (supervisor_call now st) "supervisor_decisions" = st "supervisor_decisions" ∧
    (make_routing_decision st).pyGetD "next_agent" (Val.str "end") =
      Val.str (spec_policy_next_agent st) := by
  refine ⟨?_, ?_, ?_, ?_⟩
  · simp [supervisor_call, Dict.update, Dict.ofList, Dict.updateList, Dict.set]
  · simp [supervisor_call, Dict.update, Dict.ofList, Dict.updateList, Dict.set]
  · simp [supervisor_call, Dict.update, Dict.ofList, Dict.updateList, Dict.set]
  · by_cases h1 : (st.pyGet "agent1_status").eqStr "failed" <;>
      by_cases h2 : (st.pyGet "agent2_status").eqStr "failed" <;>
      by_cases h3 : (st.pyGet "agent3_status").eqStr "failed" <;>
      simp [make_routing_decision, spec_policy_next_agent, h1, h2, h3,
        Val.pyGetD, lookupList]

/-- C4 counterexample: when stage 3 (agent3) has failed, the graph does not
divert control to the Supervisor — the edge agent3 → agent4 is
unconditional — so the Supervisor is not reachable from stage 3's failure
branch. -/
theorem stage3_failure_not_diverted :
    sC4 "agent3_status" = some (Val.str "failed") ∧
    graph_next NodeId.agent3 sC4 = Target.toNode NodeId.agent4 ∧
    graph_next NodeId.agent3 sC4 ≠ Target.toNode NodeId.supervisor :=
  ⟨rfl, rfl, by simp [graph_next]⟩

/-- C4 amended: only stages 1 and 2 are guarded by routers — each advances
to the next stage iff its own status is `completed` and otherwise diverts to
the Supervisor; stages 3 and 4 advance unconditionally (agent3 → agent4,
agent4 → END), so the Supervisor is reachable only from the failure
branches of stages 1 and 2, and the Supervisor never routes to agent1. -/
theorem router_decision_rule (st : Dict) :
    (graph_next NodeId.agent1 st = Target.toNode NodeId.agent2 ↔
      st.pyGet "agent1_status" = Val.str "completed") ∧
    (graph_next NodeId.agent1 st = Target.toNode NodeId.supervisor ↔
      ¬ st.pyGet "agent1_status" = Val.str "completed") ∧
    (graph_next NodeId.agent2 st = Target.toNode NodeId.agent3 ↔
      st.pyGet "agent2_status" = Val.str "completed") ∧
    (graph_next NodeId.agent2 st = Target.toNode NodeId.supervisor ↔
      ¬ st.pyGet "agent2_status" = Val.str "completed") ∧
    graph_next NodeId.agent3 st = Target.toNode NodeId.agent4 ∧
    graph_next NodeId.agent4 st = Target.terminal ∧
    graph_next NodeId.supervisor st ≠ Target.toNode NodeId.agent1 := by
  refine ⟨?_, ?_, ?_, ?_, rfl, rfl, ?_⟩
  · rw [← Val.eqStr_iff]
    by_cases h : (st.pyGet "agent1_status").eqStr "completed" <;>
      simp [graph_next, route_from_agent1, h]
  · rw [← Val.eqStr_iff]
    by_cases h : (st.pyGet "agent1_status").eqStr "completed" <;>
      simp [graph_next, route_from_agent1, h]
  · rw [← Val.eqStr_iff]
    by_cases h : (st.pyGet "agent2_status").eqStr "completed" <;>
      simp [graph_next, route_from_agent2, h]
  · rw [← Val.eqStr_iff]
    by_cases h : (st.pyGet "agent2_status").eqStr "completed" <;>
      simp [graph_next, route_from_agent2, h]
  · simp only [graph_next]
    split <;> simp

/-- C5 counterexample: a state already carrying an earlier error record;
when agent1's domain logic raises, the wrapped execution replaces the
`error_messages` list with a one-element list holding only the new error —
the earlier record is dropped from the list, so the new error is not
appended to the existing list. -/
theorem error_not_appended_counterexample :
    sC5 "error_messages" = some (Val.list [Val.str "old error"]) ∧
    (wrap_node (agent1_call trivial_helpers (some "boom") "t") sC5) "error_messages" =
      some (Val.list [Val.str "Agent1 error: boom"]) ∧
    (wrap_node (agent1_call trivial_helpers (some "boom") "t") sC5) "agent1_status" =
      some (Val.str "failed") :=
  ⟨rfl, rfl, rfl⟩

/-- C5 amended: for every node execution in which the agent's domain logic
raises, the exception is caught and converted into a state update that sets
that agent's status field to `failed` and sets `error_messages` to a
one-element list holding the new error record (overwriting, not appending
to, any previous entries); the node functions are total, so the exception
never propagates out of the engine. -/
theorem node_failure_recorded (H : DomainHelpers) (e : String) (now : String)
    (st : Dict) :
    ((wrap_node (agent1_call H (some e) now) st) "agent1_status" = some (Val.str "failed") ∧
     (wrap_node (agent1_call H (some e) now) st) "error_messages" =
       some (Val.list [Val.str ("Agent1 error: " ++ e)])) ∧
    ((wrap_node (agent2_call H (some e) now) st) "agent2_status" = some (Val.str "failed") ∧
     (wrap_node (agent2_call H (some e) now) st) "error_messages" =
       some (Val.list [Val.str ("Agent2 error: " ++ e)])) ∧
    ((wrap_node (agent3_call H (some e) now) st) "agent3_status" = some (Val.str "failed") ∧
     (wrap_node (agent3_call H (some e) now) st) "error_messages" =
       some (Val.list [Val.str ("Agent3 error: " ++ e)])) ∧
    ((wrap_node (agent4_call H (some e) now) st) "agent4_status" = some (Val.str "failed") ∧
     (wrap_node (agent4_call H (some e) now) st) "error_messages" =
       some (Val.list [Val.str ("Agent4 error: " ++ e)])) := by
  refine ⟨⟨?_, ?_⟩, ⟨?_, ?_⟩, ⟨?_, ?_⟩, ⟨?_, ?_⟩⟩ <;>
    simp [wrap_node, agent1_call, agent2_call, agent3_call, agent4_call,
      Dict.update, Dict.ofList, Dict.updateList, Dict.set]

/-- C6: if entering the SqliteSaver context raises during graph
initialization, `initialize_graph` still reports success with checkpointing
disabled (`checkpointer_status = "disabled_fallback"`) and only a
warning-level signal, the graph is compiled without persistence, and the
compiled graph executes runs identically to the durable one. -/
theorem checkpointer_init_failure_falls_back :
    (init_graph true true).success = true ∧
    (init_graph true true).checkpointer_status = "disabled_fallback" ∧
    (init_graph true true).has_checkpointer = false ∧
    (init_graph true true).graph_compiled = true ∧
    (init_graph true true).warning_logged = true ∧
    ∀ (H : DomainHelpers) (excF : Nat → Option String) (nowF : Nat → String)
      (s0 : Dict) (fuel : Nat),
      compiled_graph_run false H excF nowF s0 fuel =
        compiled_graph_run true H excF nowF s0 fuel :=
  ⟨rfl, rfl, rfl, rfl, rfl, fun _ _ _ _ _ => rfl⟩

/-- C7 counterexample: appending a message to a sealed collaboration session
is a silent no-op — the call returns the state completely unchanged (its one
session still carries zero messages) and the method has no error channel and
raises nothing, so no Protocol error is reported, contrary to the claim. -/
theorem sealed_append_silent_noop :
    add_collaboration_message sealed_state "agent3" "agent2" "fix_request"
        (Val.dict []) "t3" = sealed_state ∧
    (add_collaboration_message sealed_state "agent3" "agent2" "fix_request"
        (Val.dict []) "t3").collaboration_history.map
      (fun s => s.messages.length) = [0] ∧
    sealed_state.collaboration_history.map (fun s => s.status) = ["completed"] :=
  ⟨rfl, rfl, rfl⟩

/-- C7 amended: once `end` has been called on a session, any subsequent
`append_message` call is silently ignored — it returns the whole state, and
in particular the session's message list, unchanged, and no error of any
kind is reported to the caller (the Protocol-error reporting the spec
mandates is absent). -/
theorem sealed_session_append_ignored (st : CollabState) (success : Bool)
    (resolution : Option String) (now1 : String)
    (from_agent to_agent message_type : String) (content : Val)
    (now2 : String) :
    add_collaboration_message (end_collaboration st success resolution now1)
        from_agent to_agent message_type content now2 =
      end_collaboration st success resolution now1 := by
  unfold end_collaboration add_collaboration_message
  by_cases h : st.collaboration_active && !st.collaboration_history.isEmpty <;>
    simp [h]

/-- C8: a `resume` call for a thread with no checkpoint under the engine's
namespace returns a reported not-found error (`success = false` and the
error message naming the thread) rather than silently doing nothing, and the
checkpoint store — hence the persisted state — is not touched: the graph is
never invoked on this path. -/
theorem resume_missing_checkpoint_reports_error (store : CheckpointStore)
    (run_from_checkpoint : Dict → Dict × CheckpointStore) (thread_id : String)
    (h : store thread_id = Option.none) :
    (resume_workflow true store run_from_checkpoint thread_id).1.success = false ∧
    (resume_workflow true store run_from_checkpoint thread_id).1.error =
      some ("No checkpoint found for thread " ++ thread_id) ∧
    (resume_workflow true store run_from_checkpoint thread_id).1.final_state = Option.none ∧
    (resume_workflow true store run_from_checkpoint thread_id).2 = store := by
  simp [resume_workflow, h]

/-- Witness for C8 at the empty checkpoint store and thread `t1`. -/
theorem resume_missing_checkpoint_witness :
    (resume_workflow true (fun _ => Option.none)
        (fun d => (d, fun _ => Option.none)) "t1").1.success = false ∧
    (resume_workflow true (fun _ => Option.none)
        (fun d => (d, fun _ => Option.none)) "t1").1.error =
      some ("No checkpoint found for thread " ++ "t1") ∧
    (resume_workflow true (fun _ => Option.none)
        (fun d => (d, fun _ => Option.none)) "t1").1.final_state = Option.none ∧
    (resume_workflow true (fun _ => Option.none)
        (fun d => (d, fun _ => Option.none)) "t1").2 = (fun _ => Option.none) :=
  resume_missing_checkpoint_reports_error (fun _ => Option.none)
    (fun d => (d, fun _ => Option.none)) "t1" rfl

/-- C9 counterexample: on a visit where `retry_count` (5) already exceeds
`max_retries` (3) and agent1 has failed, the Supervisor still reroutes to
agent2 instead of terminating, and the state's `retry_count` is left at 5 —
it is not incremented by the visit. -/
theorem retry_guard_missing_counterexample :
    sC9 "retry_count" = some (Val.nat 5) ∧
    sC9 "max_retries" = some (Val.nat 3) ∧
    (supervisor_call "t" sC9) "retry_count" = some (Val.nat 5) ∧
    (make_routing_decision sC9).pyGetD "next_agent" (Val.str "end") = Val.str "agent2" ∧
    graph_next NodeId.supervisor (supervisor_call "t" sC9) = Target.toNode NodeId.agent2 :=
  ⟨rfl, rfl, rfl, rfl, rfl⟩

/-- C9 amended: a Supervisor visit leaves the state's `retry_count` and
`max_retries` completely unchanged (no increment happens), and its routing
decision is entirely independent of both counters — it reroutes per the
status-based policy even when `retry_count` exceeds `max_retries`, so no
termination guard exists. -/
theorem supervisor_ignores_retry_counters (st : Dict) (now : String) (v w : Val) :
    (supervisor_call now st) "retry_count" = st "retry_count" ∧
    (supervisor_call now st) "max_retries" = st "max_retries" ∧
    make_routing_decision ((st.set "retry_count" v).set "max_retries" w) =
      make_routing_decision st := by
  refine ⟨?_, ?_, ?_⟩
  · simp [supervisor_call, Dict.update, Dict.ofList, Dict.updateList, Dict.set]
  · simp [supervisor_call, Dict.update, Dict.ofList, Dict.updateList, Dict.set]
  · simp [make_routing_decision, Dict.pyGet, Dict.set]

/-- C10: the Supervisor node returns the entire input state with only the
`supervisor_decision` and `supervisor_evaluated_at` fields added or
overwritten; every other key — in particular the four per-agent status
fields and all agent output blobs — maps to exactly the value it had in the
input state. -/
theorem supervisor_frame (st : Dict) (now : String) :
    ∀ k, (supervisor_call now st) k =
      if k = "supervisor_decision" then some (make_routing_decision st)
      else if k = "supervisor_evaluated_at" then some (Val.str now)
      else st k := by
  intro k
  by_cases h1 : k = "supervisor_decision" <;>
    by_cases h2 : k = "supervisor_evaluated_at" <;>
    simp [supervisor_call, Dict.update, Dict.ofList, Dict.updateList,
      Dict.set, h1, h2]
